import Mathlib

/-!
Shallow embedding of the nezumi daemon (src/mouse.rs and src/main.rs):
the aerox9 battery-report decoder, the driver registry, the device
locator, the udev hotplug relevance check, and the poll step of the
reconnection loop, together with theorems settling the specification
claims about them.
-/

namespace Nezumi

/-! ## Protocol decoder (src/mouse.rs, mod aerox9) -/

/-- `FLAG_BATTERY_CHARGING` from src/mouse.rs: the high bit of the report byte. -/
def FLAG_BATTERY_CHARGING : Nat := 0x80

/-- `BatteryStatus` from src/mouse.rs; `percent` is the u16 field as a Nat. -/
structure BatteryStatus where
  is_charging : Bool
  percent : Nat
deriving DecidableEq, Repr

/-- Rust `u16::checked_sub`: `none` on underflow. -/
def checked_sub (a b : Nat) : Option Nat :=
  if a < b then none else some (a - b)

/-- `battery_status_from_response` from src/mouse.rs.
`data` is the report byte (a u8, so callers pass values below 256).
`data & !FLAG_BATTERY_CHARGING` is the u8 complement-mask, i.e.
`data &&& (FLAG_BATTERY_CHARGING ^^^ 0xFF)`; the widened u16 product is
taken modulo 2^16 as in the source's u16 arithmetic. -/
def battery_status_from_response (data : Nat) : Option BatteryStatus :=
  match checked_sub (data &&& (FLAG_BATTERY_CHARGING ^^^ 0xFF)) 1 with
  | none => none
  | some r =>
    if r * 5 % 65536 = 630 then
      none
    else
      some { is_charging := data &&& FLAG_BATTERY_CHARGING != 0, percent := r * 5 % 65536 }

/-! ## Driver registry (src/mouse.rs, `get_mouse`) -/

/-- `GetMouseError(String)` from src/mouse.rs: carries the offending model name. -/
structure GetMouseError where
  model : String
deriving DecidableEq, Repr

/-- The two driver variants `aerox9::Wired` and `aerox9::Wireless`. -/
inductive MouseKind
  | wired
  | wireless
deriving DecidableEq, Repr

/-- An opened HID device handle, abstracted to an identifier. -/
abbrev HidDevice := Nat

/-- A constructed driver instance: a variant bound to its device handle,
as produced by `aerox9::Wired::new` / `aerox9::Wireless::new`. -/
abbrev Mouse := MouseKind × HidDevice

/-- `get_mouse` from src/mouse.rs: match on the model name string. -/
def get_mouse (model : String) (device : HidDevice) : Except GetMouseError Mouse :=
  if model = "steelseries_aerox_9_wired" then .ok (MouseKind.wired, device)
  else if model = "steelseries_aerox_9_wireless" then .ok (MouseKind.wireless, device)
  else .error { model := model }

/-! ## Theorems about the protocol decoder -/

/-- Claim C1 counterexample: the report byte 0x16 is decoded to a reading whose
percent is 105, which lies outside the set {0, 5, ..., 100} claimed by C1. -/
theorem battery_percent_can_exceed_100 :
    battery_status_from_response 0x16 = some { is_charging := false, percent := 105 } ∧
    ¬ (105 ≤ 100) := by
  decide

set_option maxRecDepth 2000 in
/-- Claim C1 (amended): for every report byte b in 0-255 the decoder returns
either Absent (none) or a reading whose percent is a multiple of 5 at most 625;
percents strictly greater than 100 can occur (e.g. 105 for byte 0x16). -/
theorem battery_percent_mul5_le_625 :
    ∀ b : Nat, b < 256 → ∀ s, battery_status_from_response b = some s →
      s.percent % 5 = 0 ∧ s.percent ≤ 625 := by
  intro b hb s hs
  have hB : ∀ c : Nat, c < 256 →
      (battery_status_from_response c).all
        (fun t => (t.percent % 5 == 0) && decide (t.percent ≤ 625)) = true := by
    decide
  have h := hB b hb
  rw [hs] at h
  simp only [Option.all_some, Bool.and_eq_true, beq_iff_eq, decide_eq_true_eq] at h
  exact h

/-- Claim C1 witness: instantiation at byte 0x16, whose decoded percent is 105. -/
theorem battery_percent_mul5_le_625_witness :
    105 % 5 = 0 ∧ 105 ≤ 625 :=
  battery_percent_mul5_le_625 0x16 (by decide)
    { is_charging := false, percent := 105 } (by decide)

set_option maxRecDepth 2000 in
/-- Claim C3: for every byte b in 0-255, with raw = b with the high bit masked
off: if raw = 0 the result is none (the checked subtraction underflows);
otherwise, if (raw - 1) * 5 = 630 the result is none, and otherwise the result
is a reading with percent (raw - 1) * 5 and is_charging true exactly when
bit 7 of b is set. -/
theorem battery_decode_algorithm :
    ∀ b : Nat, b < 256 →
      (b &&& 127 = 0 → battery_status_from_response b = none) ∧
      (b &&& 127 ≠ 0 →
        (((b &&& 127) - 1) * 5 = 630 → battery_status_from_response b = none) ∧
        (((b &&& 127) - 1) * 5 ≠ 630 →
          battery_status_from_response b =
            some { is_charging := b &&& 128 != 0, percent := ((b &&& 127) - 1) * 5 })) := by
  decide

/-- Claim C3 witness: instantiation at byte 0x8E (charging bit set, raw 14). -/
theorem battery_decode_algorithm_witness :
    battery_status_from_response 0x8E = some { is_charging := true, percent := 65 } :=
  ((battery_decode_algorithm 0x8E (by decide)).2 (by decide)).2 (by decide)

/-- Claim C4 counterexample: report byte 0x0E has raw level 14, so it decodes
to percent (14 - 1) * 5 = 65, not 60 as the claim states. -/
theorem battery_decode_0x0E_not_60 :
    battery_status_from_response 0x0E = some { is_charging := false, percent := 65 } ∧
    (65 : Nat) ≠ 60 := by
  decide

/-- Claim C4 (amended): decoding report byte 0x0E (no charge bit, raw level 14)
yields a non-charging reading with percent exactly 65. -/
theorem battery_decode_0x0E_eq_65 :
    battery_status_from_response 0x0E = some { is_charging := false, percent := 65 } := by
  decide

set_option maxRecDepth 2000 in
/-- Claim C9: the decoder is total on 0-255: the u16 product (raw - 1) * 5 stays
below 2^16 (so the modulus never wraps), and every byte decodes to a value —
either none or the reading determined by the masked bits. -/
theorem battery_decoder_total_no_overflow :
    ∀ b : Nat, b < 256 →
      ((b &&& 127) - 1) * 5 < 65536 ∧
      (battery_status_from_response b = none ∨
        battery_status_from_response b =
          some { is_charging := b &&& 128 != 0, percent := ((b &&& 127) - 1) * 5 }) := by
  decide

/-- Claim C9 witness: instantiation at byte 0x0E. -/
theorem battery_decoder_total_no_overflow_witness :
    ((0x0E &&& 127) - 1) * 5 < 65536 ∧
    (battery_status_from_response 0x0E = none ∨
      battery_status_from_response 0x0E =
        some { is_charging := 0x0E &&& 128 != 0, percent := ((0x0E &&& 127) - 1) * 5 }) :=
  battery_decoder_total_no_overflow 0x0E (by decide)

set_option maxRecDepth 2000 in
/-- Claim C10: the decoder returns none exactly when the masked low 7 bits are
0 or 127; otherwise it returns a reading with percent ((b &&& 127) - 1) * 5, a
multiple of 5 at most 625; in particular byte 0x16 yields percent 105. -/
theorem battery_decode_characterization :
    (∀ b : Nat, b < 256 →
      (battery_status_from_response b = none ↔ b &&& 127 = 0 ∨ b &&& 127 = 127) ∧
      (b &&& 127 ≠ 0 → b &&& 127 ≠ 127 →
        battery_status_from_response b =
          some { is_charging := b &&& 128 != 0, percent := ((b &&& 127) - 1) * 5 } ∧
        ((b &&& 127) - 1) * 5 % 5 = 0 ∧ ((b &&& 127) - 1) * 5 ≤ 625)) ∧
    battery_status_from_response 0x16 = some { is_charging := false, percent := 105 } := by
  decide

/-- Claim C10 witness: instantiation at byte 0x96 (charging bit set, raw 22). -/
theorem battery_decode_characterization_witness :
    battery_status_from_response 0x96 = some { is_charging := true, percent := 105 } :=
  ((battery_decode_characterization.1 0x96 (by decide)).2 (by decide) (by decide)).1

/-! ## Theorems about the driver registry -/

/-- Claim C7: get_mouse succeeds for exactly the two supported model names,
returning the wired and wireless driver respectively; every other name yields
the unknown-model error carrying the offending name. -/
theorem get_mouse_spec :
    (∀ d : HidDevice, get_mouse "steelseries_aerox_9_wired" d = .ok (MouseKind.wired, d)) ∧
    (∀ d : HidDevice, get_mouse "steelseries_aerox_9_wireless" d = .ok (MouseKind.wireless, d)) ∧
    (∀ (m : String) (d : HidDevice),
      m ≠ "steelseries_aerox_9_wired" → m ≠ "steelseries_aerox_9_wireless" →
      get_mouse m d = .error { model := m }) := by
  refine ⟨fun d => rfl, fun d => rfl, ?_⟩
  intro m d h1 h2
  simp [get_mouse, h1, h2]

/-- Claim C7 witness: instantiation at the unsupported model name "aerox5". -/
theorem get_mouse_spec_witness :
    get_mouse "aerox5" 0 = .error { model := "aerox5" } :=
  get_mouse_spec.2.2 "aerox5" 0 (by decide) (by decide)

/-! ## Device locator (src/main.rs, `open_first_mouse`) -/

/-- `MouseProfile` from src/main.rs (field order as in the source). -/
structure MouseProfile where
  model : String
  product : Nat
  vendor : Nat
  endpoint : Int
deriving DecidableEq, Repr

/-- One entry of `hid_api.device_list()`: the fields the locator reads. -/
structure DeviceInfo where
  vendor_id : Nat
  product_id : Nat
  interface_number : Int
deriving DecidableEq, Repr

/-- `hidapi::HidError`, abstracted to its message. -/
structure HidError where
  msg : String
deriving DecidableEq, Repr

/-- `OpenFirstMouseError` from src/main.rs. -/
inductive OpenFirstMouseError
  | NotFound
  | OpenMouse (err : HidError)
  | WrapMouse (err : GetMouseError)
deriving DecidableEq, Repr

/-- The match condition of the inner loop of `open_first_mouse`. -/
def device_matches (d : DeviceInfo) (p : MouseProfile) : Bool :=
  d.vendor_id == p.vendor && d.product_id == p.product && d.interface_number == p.endpoint

/-- The inner `for cur_device in hid_api.device_list()` loop of
`open_first_mouse` for one profile: scan the enumeration for the first entry
matching the profile; on a match, open the device (`openDev` stands for
`cur_device.open_device`, which may fail) and wrap it via `get_mouse`; the
Rust `?` operator turns either failure into an error of the whole function;
on success the loop ends (`break`) holding the constructed driver; if no entry
matches, the loop falls through with nothing. -/
def scan_profile (openDev : DeviceInfo → Except HidError HidDevice)
    (devices : List DeviceInfo) (p : MouseProfile) :
    Except OpenFirstMouseError (Option Mouse) :=
  match devices with
  | [] => .ok none
  | d :: rest =>
    if device_matches d p then
      match openDev d with
      | .error e => .error (.OpenMouse e)
      | .ok dev =>
        match get_mouse p.model dev with
        | .error e => .error (.WrapMouse e)
        | .ok m => .ok (some m)
    else
      scan_profile openDev rest p

/-- The outer `for (name, profile) in mice` loop of `open_first_mouse`: note
that in the source the `break` only leaves the inner device loop, so the outer
loop keeps scanning later profiles and overwrites `mouse` on every further
match. -/
def open_first_mouse_loop (openDev : DeviceInfo → Except HidError HidDevice)
    (devices : List DeviceInfo) (mice : List (String × MouseProfile))
    (mouse : Option Mouse) : Except OpenFirstMouseError (Option Mouse) :=
  match mice with
  | [] => .ok mouse
  | (_, p) :: rest =>
    match scan_profile openDev devices p with
    | .error e => .error e
    | .ok none => open_first_mouse_loop openDev devices rest mouse
    | .ok (some m) => open_first_mouse_loop openDev devices rest (some m)

/-- `open_first_mouse` from src/main.rs: run the profile loop starting from
`mouse = None`, then `mouse.ok_or(OpenFirstMouseError::NotFound)`. -/
def open_first_mouse (openDev : DeviceInfo → Except HidError HidDevice)
    (devices : List DeviceInfo) (mice : List (String × MouseProfile)) :
    Except OpenFirstMouseError Mouse :=
  match open_first_mouse_loop openDev devices mice none with
  | .error e => .error e
  | .ok none => .error OpenFirstMouseError.NotFound
  | .ok (some m) => .ok m

/-- An `open_device` environment in which every open succeeds, returning a
handle that records the device's vendor id. -/
def openOk : DeviceInfo → Except HidError HidDevice :=
  fun d => .ok d.vendor_id

/-! ## Theorems about the device locator -/

/-- Claim C2 evaluation at a failing input: with two profiles that each match
an enumerated device and all opens succeeding, `open_first_mouse` returns the
driver of the LAST matching profile ("b", wireless, handle 2), not the first:
the source's `break` only leaves the inner device loop, so the outer profile
loop keeps scanning and overwrites the earlier successful open. -/
theorem open_first_mouse_returns_last_match :
    open_first_mouse openOk
      [{ vendor_id := 1, product_id := 1, interface_number := 0 },
       { vendor_id := 2, product_id := 2, interface_number := 0 }]
      [("a", { model := "steelseries_aerox_9_wired", product := 1, vendor := 1, endpoint := 0 }),
       ("b", { model := "steelseries_aerox_9_wireless", product := 2, vendor := 2, endpoint := 0 })]
      = .ok (MouseKind.wireless, 2) := by
  rfl

/-- If no entry of the enumeration matches the profile, the inner scan falls
through with nothing. -/
theorem scan_profile_no_match (openDev : DeviceInfo → Except HidError HidDevice)
    (devices : List DeviceInfo) (p : MouseProfile)
    (h : ∀ d ∈ devices, device_matches d p = false) :
    scan_profile openDev devices p = .ok none := by
  induction devices with
  | nil => rfl
  | cons d rest ih =>
    have hd := h d (List.mem_cons_self d rest)
    simp only [scan_profile, hd]
    exact ih fun x hx => h x (List.mem_cons_of_mem d hx)

/-- If every profile's scan falls through with nothing, the outer loop keeps
its accumulator. -/
theorem open_first_mouse_loop_all_none (openDev : DeviceInfo → Except HidError HidDevice)
    (devices : List DeviceInfo) (mice : List (String × MouseProfile)) (acc : Option Mouse)
    (h : ∀ np ∈ mice, scan_profile openDev devices np.2 = .ok none) :
    open_first_mouse_loop openDev devices mice acc = .ok acc := by
  induction mice with
  | nil => rfl
  | cons np rest ih =>
    obtain ⟨nm, p⟩ := np
    have h1 : scan_profile openDev devices p = .ok none :=
      h (nm, p) (List.mem_cons_self _ _)
    simp only [open_first_mouse_loop, h1]
    exact ih fun x hx => h x (List.mem_cons_of_mem _ hx)

/-- An error produced while scanning one profile is an open or wrap failure,
never the NotFound variant. -/
theorem scan_profile_error_not_notfound (openDev : DeviceInfo → Except HidError HidDevice)
    (devices : List DeviceInfo) (p : MouseProfile) (e : OpenFirstMouseError)
    (h : scan_profile openDev devices p = .error e) :
    e ≠ OpenFirstMouseError.NotFound := by
  induction devices with
  | nil => exact absurd h (by simp [scan_profile])
  | cons d rest ih =>
    simp only [scan_profile] at h
    split at h
    · split at h
      · injection h with h2
        subst h2
        simp
      · split at h
        · injection h with h2
          subst h2
          simp
        · exact absurd h (by simp)
    · exact ih h

/-- A scan failure on profile `p` propagates out of the profile loop as soon
as `p` is reached, provided the earlier profiles scanned without error. -/
theorem open_first_mouse_loop_error (openDev : DeviceInfo → Except HidError HidDevice)
    (devices : List DeviceInfo) (pre : List (String × MouseProfile)) (nm : String)
    (p : MouseProfile) (post : List (String × MouseProfile)) (e : OpenFirstMouseError)
    (acc : Option Mouse)
    (hpre : ∀ q ∈ pre, ∀ e2, scan_profile openDev devices q.2 ≠ .error e2)
    (hp : scan_profile openDev devices p = .error e) :
    open_first_mouse_loop openDev devices (pre ++ (nm, p) :: post) acc = .error e := by
  revert hpre
  induction pre generalizing acc with
  | nil =>
    intro hpre
    simp only [List.nil_append, open_first_mouse_loop, hp]
  | cons q rest ih =>
    intro hpre
    obtain ⟨qn, qp⟩ := q
    have hq : ∀ e2, scan_profile openDev devices qp ≠ .error e2 :=
      fun e2 => hpre (qn, qp) (List.mem_cons_self _ _) e2
    cases hs : scan_profile openDev devices qp with
    | error e2 => exact absurd hs (hq e2)
    | ok r =>
      simp only [List.cons_append, open_first_mouse_loop, hs]
      cases r with
      | none => exact ih acc fun x hx e2 => hpre x (List.mem_cons_of_mem _ hx) e2
      | some m => exact ih (some m) fun x hx e2 => hpre x (List.mem_cons_of_mem _ hx) e2

/-- Claim C6: if no profile matches any enumerated device the locator returns
exactly the NotFound variant; a scan failure (open or wrap error at the first
matching device of a profile) is never NotFound; and such a failure is
returned from `open_first_mouse` as soon as the failing profile is reached —
the profiles after it are not tried. -/
theorem open_first_mouse_error_spec :
    (∀ (openDev : DeviceInfo → Except HidError HidDevice) (devices : List DeviceInfo)
        (mice : List (String × MouseProfile)),
      (∀ np ∈ mice, ∀ d ∈ devices, device_matches d np.2 = false) →
      open_first_mouse openDev devices mice = .error OpenFirstMouseError.NotFound) ∧
    (∀ (openDev : DeviceInfo → Except HidError HidDevice) (devices : List DeviceInfo)
        (p : MouseProfile) (e : OpenFirstMouseError),
      scan_profile openDev devices p = .error e → e ≠ OpenFirstMouseError.NotFound) ∧
    (∀ (openDev : DeviceInfo → Except HidError HidDevice) (devices : List DeviceInfo)
        (pre : List (String × MouseProfile)) (nm : String) (p : MouseProfile)
        (post : List (String × MouseProfile)) (e : OpenFirstMouseError),
      (∀ q ∈ pre, ∀ e2, scan_profile openDev devices q.2 ≠ .error e2) →
      scan_profile openDev devices p = .error e →
      open_first_mouse openDev devices (pre ++ (nm, p) :: post) = .error e) := by
  refine ⟨?_, ?_, ?_⟩
  · intro openDev devices mice hno
    have hall : ∀ np ∈ mice, scan_profile openDev devices np.2 = .ok none :=
      fun np hnp => scan_profile_no_match openDev devices np.2 fun d hd => hno np hnp d hd
    unfold open_first_mouse
    rw [open_first_mouse_loop_all_none openDev devices mice none hall]
  · intro openDev devices p e h
    exact scan_profile_error_not_notfound openDev devices p e h
  · intro openDev devices pre nm p post e hpre hp
    unfold open_first_mouse
    rw [open_first_mouse_loop_error openDev devices pre nm p post e none hpre hp]

/-- Claim C6 witness: with an empty profile table and empty enumeration (so no
profile matches anything), the locator returns NotFound. -/
theorem open_first_mouse_error_spec_witness :
    open_first_mouse openOk [] [] = .error OpenFirstMouseError.NotFound :=
  open_first_mouse_error_spec.1 openOk [] [] (by simp)

/-! ## Hotplug watcher (src/main.rs, `process_udev_event`) -/

/-- The udev event types (`tokio_udev::EventType`); the source only tests for
`Bind`. -/
inductive EventType
  | Add
  | Change
  | Remove
  | Bind
  | Unbind
  | Unknown
deriving DecidableEq, Repr

/-- A udev event as read by `process_udev_event`: its type and its two
attributes. `attribute_value` returning an `OsStr` is modelled by the outer
`Option` (attribute present on the device) and `OsStr::to_str` by the inner
one (attribute is valid UTF-8). -/
structure Event where
  event_type : EventType
  idVendor : Option (Option String)
  idProduct : Option (Option String)

/-- `UdevEventError` from src/main.rs. -/
inductive UdevEventError
  | MissingVendor
  | InvalidVendor
  | MissingProduct
  | InvalidProduct
deriving DecidableEq, Repr

/-- Value of one hex digit, upper or lower case, as accepted by
`hex::FromHex`. -/
def hexVal (c : Char) : Option Nat :=
  if '0' ≤ c ∧ c ≤ '9' then some (c.toNat - '0'.toNat)
  else if 'a' ≤ c ∧ c ≤ 'f' then some (c.toNat - 'a'.toNat + 10)
  else if 'A' ≤ c ∧ c ≤ 'F' then some (c.toNat - 'A'.toNat + 10)
  else none

/-- `<[u8; 2]>::from_hex` followed by `u16::from_be_bytes`: the string must be
exactly four hex digits; the two decoded bytes are combined big-endian. -/
def fromHex2 (s : String) : Option Nat :=
  match s.toList with
  | [c1, c2, c3, c4] =>
    match hexVal c1, hexVal c2, hexVal c3, hexVal c4 with
    | some a, some b, some c, some d => some ((a * 16 + b) * 256 + (c * 16 + d))
    | _, _, _, _ => none
  | _ => none

/-- The `for (name, profile) in mice` loop of `process_udev_event`: return
true on the first profile whose vendor and product ids equal the decoded pair
(the endpoint is not consulted), false if the loop falls through. -/
def find_profile_match (vendor_id product_id : Nat) :
    List (String × MouseProfile) → Bool
  | [] => false
  | (_, p) :: rest =>
    if p.vendor == vendor_id && p.product == product_id then true
    else find_profile_match vendor_id product_id rest

/-- `process_udev_event` from src/main.rs. -/
def process_udev_event (event : Event) (mice : List (String × MouseProfile)) :
    Except UdevEventError Bool :=
  if event.event_type = EventType.Bind then
    match event.idVendor with
    | none => .error UdevEventError.MissingVendor
    | some none => .error UdevEventError.InvalidVendor
    | some (some vs) =>
      match fromHex2 vs with
      | none => .error UdevEventError.InvalidVendor
      | some vendor_id =>
        match event.idProduct with
        | none => .error UdevEventError.MissingProduct
        | some none => .error UdevEventError.InvalidProduct
        | some (some ps) =>
          match fromHex2 ps with
          | none => .error UdevEventError.InvalidProduct
          | some product_id => .ok (find_profile_match vendor_id product_id mice)
  else .ok false

/-- The profile-matching loop is the `any` of the identity test over the
table. -/
theorem find_profile_match_eq_any (v p : Nat) (mice : List (String × MouseProfile)) :
    find_profile_match v p mice =
      mice.any fun np => np.2.vendor == v && np.2.product == p := by
  induction mice with
  | nil => rfl
  | cons q rest ih =>
    obtain ⟨qn, qp⟩ := q
    by_cases h : (qp.vendor == v && qp.product == p) = true
    · rw [find_profile_match, if_pos h, List.any_cons, h, Bool.true_or]
    · have h2 : (qp.vendor == v && qp.product == p) = false := by
        cases hb : (qp.vendor == v && qp.product == p) with
        | true => exact absurd hb h
        | false => rfl
      rw [find_profile_match, if_neg h, List.any_cons, h2, Bool.false_or, ih]

/-- The profile-matching loop succeeds exactly when some profile in the table
carries the decoded vendor and product pair. -/
theorem find_profile_match_iff (v p : Nat) (mice : List (String × MouseProfile)) :
    find_profile_match v p mice = true ↔
      ∃ np ∈ mice, np.2.vendor = v ∧ np.2.product = p := by
  rw [find_profile_match_eq_any, List.any_eq_true]
  simp only [Bool.and_eq_true, beq_iff_eq]

/-- Claim C5: a non-Bind event yields Ok false whatever its attributes; for a
Bind event, a missing or undecodable idVendor or idProduct attribute yields
the corresponding MalformedEvent-style error; when both attributes decode, the
result is Ok of the profile match, which is true exactly when some profile
carries the decoded (vendor, product) pair — the endpoint is ignored. -/
theorem process_udev_event_spec :
    (∀ (e : Event) (mice : List (String × MouseProfile)),
      e.event_type ≠ EventType.Bind → process_udev_event e mice = .ok false) ∧
    (∀ (e : Event) (mice : List (String × MouseProfile)),
      e.event_type = EventType.Bind → e.idVendor = none →
      process_udev_event e mice = .error UdevEventError.MissingVendor) ∧
    (∀ (e : Event) (mice : List (String × MouseProfile)),
      e.event_type = EventType.Bind → e.idVendor = some none →
      process_udev_event e mice = .error UdevEventError.InvalidVendor) ∧
    (∀ (e : Event) (mice : List (String × MouseProfile)) (vs : String),
      e.event_type = EventType.Bind → e.idVendor = some (some vs) →
      fromHex2 vs = none →
      process_udev_event e mice = .error UdevEventError.InvalidVendor) ∧
    (∀ (e : Event) (mice : List (String × MouseProfile)) (vs : String) (v : Nat),
      e.event_type = EventType.Bind → e.idVendor = some (some vs) →
      fromHex2 vs = some v → e.idProduct = none →
      process_udev_event e mice = .error UdevEventError.MissingProduct) ∧
    (∀ (e : Event) (mice : List (String × MouseProfile)) (vs : String) (v : Nat),
      e.event_type = EventType.Bind → e.idVendor = some (some vs) →
      fromHex2 vs = some v → e.idProduct = some none →
      process_udev_event e mice = .error UdevEventError.InvalidProduct) ∧
    (∀ (e : Event) (mice : List (String × MouseProfile)) (vs ps : String) (v : Nat),
      e.event_type = EventType.Bind → e.idVendor = some (some vs) →
      fromHex2 vs = some v → e.idProduct = some (some ps) → fromHex2 ps = none →
      process_udev_event e mice = .error UdevEventError.InvalidProduct) ∧
    (∀ (e : Event) (mice : List (String × MouseProfile)) (vs ps : String) (v p : Nat),
      e.event_type = EventType.Bind → e.idVendor = some (some vs) →
      fromHex2 vs = some v → e.idProduct = some (some ps) → fromHex2 ps = some p →
      process_udev_event e mice = .ok (find_profile_match v p mice) ∧
      (process_udev_event e mice = .ok true ↔
        ∃ np ∈ mice, np.2.vendor = v ∧ np.2.product = p)) := by
  refine ⟨?_, ?_, ?_, ?_, ?_, ?_, ?_, ?_⟩
  · intro e mice h
    simp [process_udev_event, h]
  · intro e mice hb hv
    simp [process_udev_event, hb, hv]
  · intro e mice hb hv
    simp [process_udev_event, hb, hv]
  · intro e mice vs hb hv hfv
    simp [process_udev_event, hb, hv, hfv]
  · intro e mice vs v hb hv hfv hp
    simp [process_udev_event, hb, hv, hfv, hp]
  · intro e mice vs v hb hv hfv hp
    simp [process_udev_event, hb, hv, hfv, hp]
  · intro e mice vs ps v hb hv hfv hp hfp
    simp [process_udev_event, hb, hv, hfv, hp, hfp]
  · intro e mice vs ps v p hb hv hfv hp hfp
    have hrun : process_udev_event e mice = .ok (find_profile_match v p mice) := by
      simp [process_udev_event, hb, hv, hfv, hp, hfp]
    refine ⟨hrun, ?_⟩
    rw [hrun]
    constructor
    · intro h
      exact (find_profile_match_iff v p mice).mp (Except.ok.inj h)
    · intro h
      rw [(find_profile_match_iff v p mice).mpr h]

/-- Claim C5 witness: a Bind event with no idVendor attribute and an empty
table yields the MissingVendor error. -/
theorem process_udev_event_spec_witness :
    process_udev_event { event_type := EventType.Bind, idVendor := none, idProduct := none }
      [] = .error UdevEventError.MissingVendor :=
  process_udev_event_spec.2.1
    { event_type := EventType.Bind, idVendor := none, idProduct := none } [] rfl rfl

/-! ## Poll state of the reconnection loop (src/main.rs, `main`) -/

/-- The two states of the reconnection loop the Poll iteration moves between:
polling the opened driver, or watching udev for a reconnect. -/
inductive LoopState
  | Poll
  | Watch
deriving DecidableEq, Repr

/-- What one Poll iteration does: where control goes next, the lines written
to standard output, and whether the retry warning was logged. -/
structure PollStepResult where
  next : LoopState
  printed : List String
  warned : Bool
deriving DecidableEq, Repr

/-- The status line printed for a reading by `main`:
`"\u{f8cc}{} {}%"` with the charging glyph when `is_charging`. -/
def status_line (s : BatteryStatus) : String :=
  String.mk [Char.ofNat 0xf8cc] ++
    (if s.is_charging then String.mk [Char.ofNat 0xf0e7] else "") ++
    " " ++ toString s.percent ++ "%"

/-- One iteration of the inner Poll loop of `main` on the result of
`mouse.battery()`: a reading prints a status line and stays in Poll; an
Absent response logs the warning and stays in Poll; an error breaks out of
the loop, after which `main` prints a blank line and enters the udev watch. -/
def poll_step (r : Except HidError (Option BatteryStatus)) : PollStepResult :=
  match r with
  | .ok (some s) => { next := LoopState.Poll, printed := [status_line s], warned := false }
  | .ok none => { next := LoopState.Poll, printed := [], warned := true }
  | .error _ => { next := LoopState.Watch, printed := [""], warned := false }

/-- Claim C8: in the Poll state, Ok Some prints a status line and stays in
Poll; Ok None (Absent) logs the warning and stays in Poll; an error leaves
Poll for Watch with a blank line printed first; and reaching Watch happens
only on an error. -/
theorem poll_step_spec :
    (∀ s, poll_step (.ok (some s)) =
      { next := LoopState.Poll, printed := [status_line s], warned := false }) ∧
    poll_step (.ok none) = { next := LoopState.Poll, printed := [], warned := true } ∧
    (∀ e, poll_step (.error e) =
      { next := LoopState.Watch, printed := [""], warned := false }) ∧
    (∀ r, (poll_step r).next = LoopState.Watch → ∃ e, r = .error e) := by
  refine ⟨fun s => rfl, rfl, fun e => rfl, ?_⟩
  intro r h
  match r with
  | .error e => exact ⟨e, rfl⟩
  | .ok (some s) => exact absurd h (by simp [poll_step])
  | .ok none => exact absurd h (by simp [poll_step])

/-- Claim C8 witness: the only way the concrete step that reached Watch can
have been produced is a connection-level error. -/
theorem poll_step_spec_witness :
    ∃ e, (Except.error { msg := "timeout" } : Except HidError (Option BatteryStatus)) =
      Except.error e :=
  poll_step_spec.2.2.2 (Except.error { msg := "timeout" }) rfl

end Nezumi
